import Mathlib

/-!
Shallow embedding of the Shopify detection engine of `src/main.py`
(repository `shopify-finder`).

The Python string primitives the source relies on (`str.strip`,
`str.startswith`, `str.lower`, case-insensitive `re` searches over the
fixed marker patterns, and the slice of the CPython functions `urllib.parse.urlparse`
and `urljoin` actually exercised by this program) are translated into
executable Lean functions over `String` and `List Char`.  Network effects
are modelled by an `Oracle` that supplies the outcome of each HTTP GET
(`requests.get` either returns a response or raises, modelled by
`Except`).  The main loop `is_shopify_site` is translated line by line;
besides the verdict quadruple it also returns the list of observable
actions (requests issued, signal checks evaluated) so that statements
about evaluation order and about the absence of network calls can be
made.

One point needs explicit nondeterminism: `normalize_candidates` in the
source builds the two host variants in a Python `set` (`base_hosts`) and
then iterates over it.  Iteration order of a CPython `set` of strings
depends on the string hashes (randomized per process), so the relative
order of the two hosts is not determined by the source text.  The
embedding therefore takes a `setSwap : Bool` parameter selecting which of
the two admissible iteration orders the set produces.
-/

namespace ShopifyFinder

/-- Python `str.isspace` on a single character, as used by `str.strip()`:
true for ASCII whitespace and the Unicode space/separator characters. -/
def pyIsSpace (c : Char) : Bool :=
  c == ' ' || c == '\t' || c == '\n' || c.toNat == 0x0b || c.toNat == 0x0c ||
  c == '\r' || (0x1c ≤ c.toNat && c.toNat ≤ 0x1f) || c.toNat == 0x85 ||
  c.toNat == 0xa0 || c.toNat == 0x1680 ||
  (0x2000 ≤ c.toNat && c.toNat ≤ 0x200a) || c.toNat == 0x2028 ||
  c.toNat == 0x2029 || c.toNat == 0x202f || c.toNat == 0x205f ||
  c.toNat == 0x3000

/-- Python `str.strip()` on a list of characters: drop whitespace from both
ends. -/
def pyStripList (l : List Char) : List Char :=
  ((l.dropWhile pyIsSpace).reverse.dropWhile pyIsSpace).reverse

/-- Python `raw.strip()` (line 34 of the source). -/
def pyStrip (s : String) : String :=
  String.mk (pyStripList s.toList)

/-- Python `str.lower()` restricted to ASCII letters, which is what the
hostnames, header names and content types inspected by the source contain. -/
def lowerStr (s : String) : String :=
  String.mk (s.toList.map Char.toLower)

/-- Python `", ".join(parts)`. -/
def joinComma : List String → String
  | [] => ""
  | [s] => s
  | s :: rest => s ++ ", " ++ joinComma rest

/-- Boolean prefix test on character lists (Python `str.startswith`). -/
def isPrefixB : List Char → List Char → Bool
  | [], _ => true
  | _ :: _, [] => false
  | p :: ps, c :: cs => p == c && isPrefixB ps cs

/-- Python `s.startswith(pre)`. -/
def strStarts (s pre : String) : Bool :=
  isPrefixB pre.toList s.toList

/-- Python regex `\w` on the ASCII range: letters, digits and underscore. -/
def isWordChar (c : Char) : Bool :=
  c.isAlphanum || c == '_'

/-- A `\b` word boundary holds after the end of a (word-char-final) literal
iff the following character, when present, is not a word character. -/
def noWordHead (l : List Char) : Bool :=
  match l with
  | [] => true
  | c :: _ => !isWordChar c

/-- A `\b` word boundary holds before a (word-char-initial) literal iff the
preceding character, when present, is not a word character. -/
def boundaryOkLeft (needB : Bool) (prev : Option Char) : Bool :=
  !needB || (match prev with | none => true | some c => !isWordChar c)

/-- One attempted match of a literal regex at a fixed position, with
optional word boundaries on either side (all five `BODY_MARKERS` patterns
are literals whose first and last characters are word characters, so the
`\b` anchors reduce to these side conditions). -/
def matchesHere (needB needA : Bool) (pat : List Char) (prev : Option Char)
    (s : List Char) : Bool :=
  boundaryOkLeft needB prev && isPrefixB pat s &&
    (!needA || noWordHead (s.drop pat.length))

/-- Scan of `re.search`: try the pattern at every position, remembering the
previous character for the left word-boundary test. -/
def reSearchAux (needB needA : Bool) (pat : List Char) :
    Option Char → List Char → Bool
  | prev, [] => matchesHere needB needA pat prev []
  | prev, c :: cs =>
    matchesHere needB needA pat prev (c :: cs) ||
      reSearchAux needB needA pat (some c) cs

/-- Python `re.search(pat, text, re.I)` for a literal pattern (given here
already lower-cased) with optional `\b` anchors. -/
def reSearchCI (needB needA : Bool) (pat : String) (text : String) : Bool :=
  reSearchAux needB needA pat.toList none (lowerStr text).toList

/-- One entry of `BODY_MARKERS`: the regex source text as written in the
Python list, the literal it matches (lower-cased), and whether the pattern
carries a leading / trailing `\b` anchor. -/
structure Marker where
  src : String
  lit : String
  needB : Bool
  needA : Bool

/-- The fixed marker pattern list of the source (lines 24-30). -/
def BODY_MARKERS : List Marker :=
  [⟨"cdn\\.shopify\\.com", "cdn.shopify.com", false, false⟩,
   ⟨"\\bmyshopify\\.com\\b", "myshopify.com", true, true⟩,
   ⟨"window\\.Shopify\\b", "window.shopify", false, true⟩,
   ⟨"Shopify\\.theme\\b", "shopify.theme", false, true⟩,
   ⟨"shopify-digital-wallet", "shopify-digital-wallet", false, false⟩]

/-- Function `check_body_markers` (lines 68-73): every pattern that matches the body
case-insensitively is recorded, in the order of `BODY_MARKERS`. -/
def check_body_markers (text : String) : List String :=
  (BODY_MARKERS.filter (fun m => reSearchCI m.needB m.needA m.lit text)).map
    (fun m => m.src)

/-- The bytes that the CPython function `urlsplit` removes from a URL before parsing. -/
def URL_UNSAFE : List Char := ['\t', '\r', '\n']

/-- Preprocessing of the CPython function `urlsplit`: strip leading C0 control characters
and spaces, then drop tab, carriage return and newline everywhere. -/
def urlPreprocess (u : String) : List Char :=
  (u.toList.filter (fun c => !URL_UNSAFE.contains c)).dropWhile
    (fun c => c.toNat ≤ 0x20)

/-- Characters admissible in a URL scheme (`urllib.parse.scheme_chars`). -/
def isSchemeChar (c : Char) : Bool :=
  c.isAlpha || c.isDigit || c == '+' || c == '-' || c == '.'

/-- The scheme-splitting step of the CPython function `urlsplit`: if the text up to
the first `:` is a nonempty run of scheme characters starting with a
letter, strip it (lower-cased) as the scheme. -/
def splitScheme (cs : List Char) : List Char × List Char :=
  let pre := cs.takeWhile (fun c => c != ':')
  if pre.length == 0 || pre.length == cs.length then ([], cs)
  else if (match pre with | c :: _ => c.isAlpha | [] => false) &&
      pre.all isSchemeChar then
    (pre.map Char.toLower, cs.drop (pre.length + 1))
  else ([], cs)

/-- Characters that terminate the netloc in `urlsplit`. -/
def isNetlocStop (c : Char) : Bool :=
  c == '/' || c == '?' || c == '#'

/-- The netloc-splitting step of `urlsplit`: after the scheme, a leading
`//` introduces the netloc, which runs until `/`, `?` or `#`. -/
def splitNetloc (cs : List Char) : List Char × List Char :=
  match cs with
  | '/' :: '/' :: rest =>
    let nl := rest.takeWhile (fun c => !isNetlocStop c)
    (nl, rest.drop nl.length)
  | _ => ([], cs)

/-- The list `urllib.parse.uses_params`: schemes for which `urlparse` separates the
`;params` component from the path. -/
def USES_PARAMS : List String :=
  ["", "ftp", "hdl", "prospero", "http", "imap", "https", "shttp", "rtsp",
   "rtspu", "sip", "sips", "mms", "sftp", "tel"]

/-- The helper `urllib.parse._splitparams`, keeping only the path part: when the path
contains `/`, the params split looks for the first `;` at or after the last
`/`; otherwise at the first `;`. -/
def splitParams (p : List Char) : List Char :=
  if p.contains '/' then
    let k := p.length - 1 -
      (match p.reverse.findIdx? (fun x => x == '/') with
       | some j => j
       | none => 0)
    match (p.drop k).findIdx? (fun x => x == ';') with
    | none => p
    | some d => p.take (k + d)
  else
    match p.findIdx? (fun x => x == ';') with
    | none => p
    | some d => p.take d

/-- The slice of `urlparse` used on line 41-42 of the source: the value of
`p.netloc or p.path` for the parsed URL (CPython 3.11 `urlsplit` plus the
params split of `urlparse`; the `Invalid IPv6 URL` validation raise for
unbalanced brackets in the netloc is outside the modelled slice). -/
def parseHostRaw (u : String) : List Char :=
  let cs := urlPreprocess u
  let sr := splitScheme cs
  let nr := splitNetloc sr.2
  if nr.1 ≠ [] then nr.1
  else
    let path0 := nr.2.takeWhile (fun c => !(c == '#' || c == '?'))
    if USES_PARAMS.contains (String.mk sr.1) && path0.contains ';' then
      splitParams path0
    else path0

/-- Python `host.strip("/")` (line 43). -/
def stripSlashList (l : List Char) : List Char :=
  ((l.dropWhile (fun c => c == '/')).reverse.dropWhile (fun c => c == '/')).reverse

/-- Python `re.match(r"^https?://", raw, re.I)` (line 37). -/
def matchesHttpScheme (s : String) : Bool :=
  strStarts (lowerStr s) "http://" || strStarts (lowerStr s) "https://"

/-- Lines 37-40: prepend `https://` when the scheme is missing. -/
def rawHttps (raw : String) : String :=
  if matchesHttpScheme raw then raw else "https://" ++ raw

/-- Lines 34-44 of `normalize_candidates`: the trimmed, scheme-completed,
parsed and slash-stripped host; `""` encodes both early `return []` exits
(empty input and no usable host). -/
def normHost (input : String) : String :=
  let raw := pyStrip input
  if raw = "" then ""
  else String.mk (stripSlashList (parseHostRaw (rawHttps raw)))

/-- The literal `"www."`. -/
def wwwChars : List Char := ['w', 'w', 'w', '.']

/-- Python `l.replace(pat, "", 1)` on character lists: remove the first
occurrence of `pat`, if any. -/
def removeFirstOcc (pat : List Char) : List Char → List Char
  | [] => []
  | c :: cs =>
    if isPrefixB pat (c :: cs) then (c :: cs).drop pat.length
    else c :: removeFirstOcc pat cs

/-- Lines 46-50: the second host variant — strip one leading `www.` when
present, otherwise prepend `www.`. -/
def wwwVariant (host : String) : String :=
  if isPrefixB wwwChars host.toList then
    String.mk (removeFirstOcc wwwChars host.toList)
  else "www." ++ host

/-- Lines 53-54: the two root URLs generated for one host. -/
def mkUrls (h : String) : List String :=
  ["https://" ++ h ++ "/", "http://" ++ h ++ "/"]

/-- Lines 56-59: first-seen-order de-duplication with a `seen` set. -/
def dedupAux (seen : List String) : List String → List String
  | [] => []
  | u :: us =>
    if u ∈ seen then dedupAux seen us
    else u :: dedupAux (u :: seen) us

/-- Function `normalize_candidates` (lines 33-60).  `setSwap` selects the iteration
order of the two-element Python `set` `base_hosts` (the source inserts the
input-derived host first and the counterpart second, but set iteration
order is hash-dependent). -/
def normalize_candidates (setSwap : Bool) (input : String) : List String :=
  let host := normHost input
  if host = "" then []
  else
    let hv := wwwVariant host
    let pr := if setSwap then (hv, host) else (host, hv)
    dedupAux [] (mkUrls pr.1 ++ mkUrls pr.2)

/-- One HTTP response as the source inspects it: final URL after
redirects (`r.url`), the response header names (`r.headers.keys()`), the
cookie names (`c.name for c in r.cookies`), and the body text
(`r.text or ""`). -/
structure Resp where
  url : String
  headerNames : List String
  cookieNames : List String
  body : String
  deriving DecidableEq

/-- The JSON value returned by `r.json()` as far as the source inspects
it: either a dict, of which only the key set matters, or any non-dict
value. -/
inductive PyJson where
  | obj (keys : List String)
  | nonObj
  deriving DecidableEq

/-- The `/cart.js` response as the source inspects it: status code,
`Content-Type` header (empty string when the header is absent, per
`r.headers.get("Content-Type", "")`), and the outcome of `r.json()`
(`Except.error` models a JSON parse exception). -/
structure CartResp where
  status : Nat
  contentType : String
  json : Except String PyJson

/-- The network, as seen by the program: each GET either returns a
response or raises (`Except.error` carries the exception text `e`). -/
structure Oracle where
  fetch : String → Except String Resp
  cart : String → Except String CartResp

/-- Observable actions of one detection run: requests issued and signal
checks evaluated, each check tagged with its hit list. -/
inductive Event where
  | fetchReq (url : String)
  | headerCheck (hits : List String)
  | cookieCheck (hits : List String)
  | markerCheck (hits : List String)
  | cartReq (url : String)
  deriving DecidableEq

/-- The quadruple returned by `is_shopify_site`. -/
structure Verdict where
  ok : Bool
  confidence : String
  resolvedUrl : Option String
  reasons : List String
  deriving DecidableEq

/-- The list `urllib.parse.uses_relative`: schemes for which `urljoin` resolves
relative references. -/
def USES_RELATIVE : List String :=
  ["", "ftp", "http", "gopher", "nntp", "imap", "wais", "file", "https",
   "shttp", "mms", "prospero", "rtsp", "rtspu", "sftp", "svn", "svn+ssh",
   "ws", "wss"]

/-- Call `urljoin(final_url, "/cart.js")` (line 76): for an absolute path the
result keeps the scheme and netloc of the base and replaces everything after
the authority (CPython 3.11 `urlunsplit` inserts `//` for every nonempty
scheme of `uses_relative`, all of which lie in `uses_netloc`, even when
the netloc is empty). -/
def urljoin_cart (base : String) : String :=
  if base = "" then "/cart.js"
  else
    let cs := urlPreprocess base
    let sr := splitScheme cs
    let sch := String.mk sr.1
    if !(USES_RELATIVE.contains sch) then "/cart.js"
    else
      let nl := (splitNetloc sr.2).1
      if sch = "" then
        if nl ≠ [] then "//" ++ String.mk nl ++ "/cart.js" else "/cart.js"
      else sch ++ "://" ++ String.mk nl ++ "/cart.js"

/-- The failure text of line 89. -/
def cartFailMsg (status : Nat) (ctype : String) : String :=
  "/cart.js не підтвердив Shopify (status=" ++ toString status ++
    ", type=" ++ ctype ++ ")"

/-- Function `try_cart_json` (lines 75-92): GET `/cart.js` relative to the resolved
URL; success iff status 200, JSON content type, and the body is a JSON
dict with one of the keys `items`, `token`, `attributes`.  All failure
paths, including the network error and the JSON parse error, are caught
and become a negative result with an explanatory message. -/
def try_cart_json (O : Oracle) (final_url : String) : Bool × String :=
  let cart_url := urljoin_cart final_url
  match O.cart cart_url with
  | Except.error e => (false, "/cart.js помилка: " ++ e)
  | Except.ok r =>
    if r.status == 200 &&
        strStarts (lowerStr r.contentType) "application/json" then
      match r.json with
      | Except.error e => (false, "/cart.js помилка: " ++ e)
      | Except.ok (PyJson.obj keys) =>
        if keys.contains "items" || keys.contains "token" ||
            keys.contains "attributes" then
          (true, "Доступний " ++ cart_url ++ " (валідний JSON із ключами Shopify)")
        else (false, cartFailMsg r.status (lowerStr r.contentType))
      | Except.ok PyJson.nonObj =>
        (false, cartFailMsg r.status (lowerStr r.contentType))
    else (false, cartFailMsg r.status (lowerStr r.contentType))

/-- Line 103: the response header names with case-insensitive vendor
prefix `X-Shopify-`. -/
def shopify_headers (r : Resp) : List String :=
  r.headerNames.filter (fun k => strStarts (lowerStr k) "x-shopify-")

/-- Line 114: the cookie names with case-insensitive vendor prefix
`_shopify`. -/
def shopify_cookies (r : Resp) : List String :=
  r.cookieNames.filter (fun c => strStarts (lowerStr c) "_shopify")

/-- The evidence text of line 105. -/
def headerMsg (hs : List String) : String :=
  "Заголовки містять X-Shopify-* (" ++ joinComma (hs.take 5) ++ "...)"

/-- The evidence text of line 116. -/
def cookieMsg (cs : List String) : String :=
  "Знайдено Shopify-кукі: " ++ joinComma (cs.take 6)

/-- The evidence text of line 123. -/
def markerMsg (ms : List String) : String :=
  "У розмітці є маркери: " ++ joinComma ms

/-- The evidence text of line 145. -/
def noSignalMsg (u : String) : String :=
  "Немає ознак Shopify на " ++ u

/-- The evidence text of line 149. -/
def probeFailMsg (candidate e : String) : String :=
  "Не вдалося відкрити " ++ candidate ++ ": " ++ e

/-- Outcome of one loop iteration of `is_shopify_site`: either a decided
verdict (`return` in the loop body) or the updated evidence list to carry
to the next candidate. -/
inductive StepOut where
  | decided (v : Verdict)
  | next (reasons : List String)

/-- The body of the `for candidate in ...` loop of `is_shopify_site`
(lines 98-152), together with the observable actions it performs.  When
the fetch raises, the failure note is appended and the loop continues.
Otherwise the header filter of line 103 always runs; if it hits, the
verdict is decided immediately (the `/cart.js` probe is still issued, and
its message recorded only on success).  With no header hit, the cookie
filter, the body-marker scan and the `/cart.js` probe all run, and the
decision ladder of lines 127-142 applies. -/
def probe_candidate (O : Oracle) (reasons : List String) (candidate : String) :
    StepOut × List Event :=
  match O.fetch candidate with
  | Except.error e =>
    (StepOut.next (reasons ++ [probeFailMsg candidate e]),
     [Event.fetchReq candidate])
  | Except.ok r =>
    if shopify_headers r = [] then
      let reasons1 :=
        if shopify_cookies r = [] then reasons
        else reasons ++ [cookieMsg (shopify_cookies r)]
      let reasons2 :=
        if check_body_markers r.body = [] then reasons1
        else reasons1 ++ [markerMsg (check_body_markers r.body)]
      let c := try_cart_json O r.url
      let ev := [Event.fetchReq candidate, Event.headerCheck [],
                 Event.cookieCheck (shopify_cookies r),
                 Event.markerCheck (check_body_markers r.body),
                 Event.cartReq (urljoin_cart r.url)]
      if c.1 then
        (StepOut.decided ⟨true, "висока", some r.url, reasons2 ++ [c.2]⟩, ev)
      else if shopify_cookies r ≠ [] ∧ check_body_markers r.body ≠ [] then
        (StepOut.decided ⟨true, "висока", some r.url, reasons2 ++ [c.2]⟩, ev)
      else if shopify_cookies r ≠ [] ∨ check_body_markers r.body ≠ [] then
        (StepOut.decided ⟨true, "середня", some r.url, reasons2 ++ [c.2]⟩, ev)
      else (StepOut.next (reasons2 ++ [noSignalMsg r.url]), ev)
    else
      let reasons1 := reasons ++ [headerMsg (shopify_headers r)]
      let c := try_cart_json O r.url
      (StepOut.decided
        ⟨true, "висока", some r.url,
         if c.1 then reasons1 ++ [c.2] else reasons1⟩,
       [Event.fetchReq candidate, Event.headerCheck (shopify_headers r),
        Event.cartReq (urljoin_cart r.url)])

/-- The candidate loop of `is_shopify_site`: try candidates in order until
one decides; exhaustion yields the negative low-confidence verdict of
line 156 with the accumulated evidence. -/
def is_shopify_go (O : Oracle) : List String → List String → Verdict × List Event
  | reasons, [] => (⟨false, "низька", none, reasons⟩, [])
  | reasons, candidate :: rest =>
    match probe_candidate O reasons candidate with
    | (StepOut.decided v, ev) => (v, ev)
    | (StepOut.next rs, ev) =>
      let t := is_shopify_go O rs rest
      (t.1, ev ++ t.2)

/-- Function `is_shopify_site` (lines 95-156), over the modelled network `O` and
the set-iteration order `setSwap` of the normalizer. -/
def is_shopify_site (O : Oracle) (setSwap : Bool) (input_url : String) :
    Verdict × List Event :=
  is_shopify_go O [] (normalize_candidates setSwap input_url)

/-- Drops the outcome tag of a GET: true exactly when the request raised. -/
def isErr {ε α : Type} : Except ε α → Bool
  | Except.error _ => true
  | Except.ok _ => false

/-- The failure note the loop records for a candidate whose fetch raised,
read back from the oracle (meaningful only when the fetch raised). -/
def failNote (O : Oracle) (c : String) : String :=
  match O.fetch c with
  | Except.error e => probeFailMsg c e
  | Except.ok _ => ""

/-- True when the trace contains a header-check evaluation. -/
def hasHeaderCheck (evs : List Event) : Bool :=
  evs.any (fun e => match e with | Event.headerCheck _ => true | _ => false)

/-- True when the trace contains a cookie-check evaluation. -/
def hasCookieCheck (evs : List Event) : Bool :=
  evs.any (fun e => match e with | Event.cookieCheck _ => true | _ => false)

/-- True when the trace contains a body-marker-check evaluation. -/
def hasMarkerCheck (evs : List Event) : Bool :=
  evs.any (fun e => match e with | Event.markerCheck _ => true | _ => false)

/-- True when the trace contains a GET of the auxiliary endpoint. -/
def hasCartReq (evs : List Event) : Bool :=
  evs.any (fun e => match e with | Event.cartReq _ => true | _ => false)

/-- Internal consistency of a verdict: the positive flag, the presence of
a resolved URL, and a confidence of high or medium all coincide, and a
negative verdict carries confidence low. -/
def consistentVerdict (v : Verdict) : Prop :=
  (v.ok = true ↔ v.resolvedUrl ≠ none) ∧
  (v.ok = true ↔ (v.confidence = "висока" ∨ v.confidence = "середня")) ∧
  (v.ok = false → v.confidence = "низька")

/-- A concrete response carrying a vendor header. -/
def respHdr : Resp := ⟨"https://shop.example/", ["X-Shopify-Stage", "Server"], [], ""⟩

/-- A concrete network on which every page fetch returns `respHdr` and the
auxiliary endpoint always raises. -/
def oracleHdr : Oracle :=
  ⟨fun _ => Except.ok respHdr, fun _ => Except.error "connection refused"⟩

/-- A concrete response with no signal at all. -/
def respPlain : Resp := ⟨"https://plain.example/", ["Server"], [], "hello"⟩

/-- A concrete successful auxiliary response: status 200, JSON content
type, a JSON dict containing the key `token`. -/
def cartOkResp : CartResp :=
  ⟨200, "application/json; charset=utf-8", Except.ok (PyJson.obj ["token"])⟩

/-- A concrete network with signal-free pages and a succeeding auxiliary
endpoint. -/
def oracleCartOk : Oracle :=
  ⟨fun _ => Except.ok respPlain, fun _ => Except.ok cartOkResp⟩

/-- A concrete response carrying one vendor cookie, no vendor header and a
marker-free body. -/
def respCookie : Resp :=
  ⟨"https://cook.example/", ["Server"], ["_shopify_s", "theme"], "plain body"⟩

/-- A concrete negative auxiliary response. -/
def cartNegResp : CartResp := ⟨404, "text/html", Except.ok PyJson.nonObj⟩

/-- A concrete network with cookie-only pages and a failing auxiliary
check. -/
def oracleCookie : Oracle :=
  ⟨fun _ => Except.ok respCookie, fun _ => Except.ok cartNegResp⟩

/-- A concrete network on which every request times out. -/
def oracleDown : Oracle :=
  ⟨fun _ => Except.error "timeout", fun _ => Except.error "timeout"⟩

/-- The character list of an https root URL, in cons form. -/
theorem data_url_https (a : String) : ("https://" ++ a ++ "/").data =
    'h' :: 't' :: 't' :: 'p' :: 's' :: ':' :: '/' :: '/' :: (a.data ++ ['/']) := by
  rw [String.data_append ("https://" ++ a) "/", String.data_append "https://" a]
  rfl

/-- The character list of an http root URL, in cons form. -/
theorem data_url_http (a : String) : ("http://" ++ a ++ "/").data =
    'h' :: 't' :: 't' :: 'p' :: ':' :: '/' :: '/' :: (a.data ++ ['/']) := by
  rw [String.data_append ("http://" ++ a) "/", String.data_append "http://" a]
  rfl

/-- An https root URL never equals an http root URL (they differ at the
fifth character). -/
theorem https_ne_http (a b : String) :
    "https://" ++ a ++ "/" ≠ "http://" ++ b ++ "/" := by
  intro h
  have h2 := congrArg String.data h
  rw [data_url_https, data_url_http] at h2
  injection h2 with e1 h2
  injection h2 with e2 h2
  injection h2 with e3 h2
  injection h2 with e4 h2
  injection h2 with e5 h2
  exact absurd e5 (by decide)

/-- Equal https root URLs have equal hosts. -/
theorem https_url_inj (a b : String)
    (h : "https://" ++ a ++ "/" = "https://" ++ b ++ "/") : a = b := by
  have h2 := congrArg String.data h
  rw [data_url_https, data_url_https] at h2
  injection h2 with e1 h2
  injection h2 with e2 h2
  injection h2 with e3 h2
  injection h2 with e4 h2
  injection h2 with e5 h2
  injection h2 with e6 h2
  injection h2 with e7 h2
  injection h2 with e8 h2
  exact String.ext (List.append_cancel_right h2)

/-- Equal http root URLs have equal hosts. -/
theorem http_url_inj (a b : String)
    (h : "http://" ++ a ++ "/" = "http://" ++ b ++ "/") : a = b := by
  have h2 := congrArg String.data h
  rw [data_url_http, data_url_http] at h2
  injection h2 with e1 h2
  injection h2 with e2 h2
  injection h2 with e3 h2
  injection h2 with e4 h2
  injection h2 with e5 h2
  injection h2 with e6 h2
  injection h2 with e7 h2
  exact String.ext (List.append_cancel_right h2)

/-- A Boolean list-prefix is no longer than the list. -/
theorem isPrefixB_length : ∀ {pat l : List Char},
    isPrefixB pat l = true → pat.length ≤ l.length := by
  intro pat
  induction pat with
  | nil => intro l _; simp
  | cons p ps ih =>
    intro l h
    cases l with
    | nil => simp [isPrefixB] at h
    | cons c cs =>
      simp only [isPrefixB, Bool.and_eq_true] at h
      simpa using ih h.2

/-- When the pattern is a leading occurrence, removing the first
occurrence drops exactly the pattern length. -/
theorem removeFirstOcc_head {pat l : List Char} (hpat : pat ≠ [])
    (h : isPrefixB pat l = true) : removeFirstOcc pat l = l.drop pat.length := by
  cases l with
  | nil =>
    cases pat with
    | nil => exact absurd rfl hpat
    | cons p ps => simp [isPrefixB] at h
  | cons c cs => rw [removeFirstOcc, if_pos h]

/-- The second host variant always differs from the host itself (the two
lengths differ by four). -/
theorem wwwVariant_ne (host : String) : wwwVariant host ≠ host := by
  rw [wwwVariant]
  by_cases h : isPrefixB wwwChars host.toList = true
  · rw [if_pos h]
    intro he
    have hd := congrArg String.data he
    have hd2 : removeFirstOcc wwwChars host.toList = host.data := hd
    rw [removeFirstOcc_head (by decide) h] at hd2
    have hlen := congrArg List.length hd2
    have hle : wwwChars.length ≤ host.toList.length := isPrefixB_length h
    simp only [List.length_drop] at hlen
    have h4 : wwwChars.length = 4 := by decide
    rw [h4] at hlen hle
    have : host.toList.length = host.data.length := rfl
    omega
  · rw [if_neg h]
    intro he
    have hd := congrArg String.data he
    rw [String.data_append "www." host] at hd
    have hlen := congrArg List.length hd
    simp at hlen
    omega

/-- On the four root URLs of two distinct hosts the de-duplication pass
of the normalizer keeps everything. -/
theorem dedup_urls (a b : String) (hab : a ≠ b) :
    dedupAux [] (mkUrls a ++ mkUrls b) =
      ["https://" ++ a ++ "/", "http://" ++ a ++ "/",
       "https://" ++ b ++ "/", "http://" ++ b ++ "/"] := by
  have n1 : "http://" ++ a ++ "/" ≠ "https://" ++ a ++ "/" :=
    fun h => https_ne_http a a h.symm
  have n2 : "https://" ++ b ++ "/" ≠ "https://" ++ a ++ "/" :=
    fun h => hab (https_url_inj b a h).symm
  have n3 : "https://" ++ b ++ "/" ≠ "http://" ++ a ++ "/" := https_ne_http b a
  have n4 : "http://" ++ b ++ "/" ≠ "https://" ++ a ++ "/" :=
    fun h => https_ne_http a b h.symm
  have n5 : "http://" ++ b ++ "/" ≠ "http://" ++ a ++ "/" :=
    fun h => hab (http_url_inj b a h).symm
  have n6 : "http://" ++ b ++ "/" ≠ "https://" ++ b ++ "/" :=
    fun h => https_ne_http b b h.symm
  simp [mkUrls, dedupAux, n1, n2, n3, n4, n5, n6]

/-- The de-duplication pass returns a duplicate-free list disjoint from
the seen set. -/
theorem dedupAux_nodup : ∀ (l seen : List String),
    (dedupAux seen l).Nodup ∧ ∀ x ∈ dedupAux seen l, x ∉ seen := by
  intro l
  induction l with
  | nil => intro seen; simp [dedupAux]
  | cons u us ih =>
    intro seen
    by_cases hu : u ∈ seen
    · rw [dedupAux, if_pos hu]
      exact ih seen
    · rw [dedupAux, if_neg hu]
      obtain ⟨hnd, hmem⟩ := ih (u :: seen)
      refine ⟨List.nodup_cons.2 ⟨fun hx => ?_, hnd⟩, ?_⟩
      · exact (hmem u hx) (List.mem_cons_self u seen)
      · intro x hx
        rcases List.mem_cons.1 hx with rfl | hx2
        · exact hu
        · intro hxs
          exact (hmem x hx2) (List.mem_cons_of_mem u hxs)

/-- The de-duplication pass never lengthens the list. -/
theorem dedupAux_length : ∀ (l seen : List String),
    (dedupAux seen l).length ≤ l.length := by
  intro l
  induction l with
  | nil => intro seen; simp [dedupAux]
  | cons u us ih =>
    intro seen
    by_cases hu : u ∈ seen
    · rw [dedupAux, if_pos hu]
      exact Nat.le_succ_of_le (ih seen)
    · rw [dedupAux, if_neg hu]
      simpa using ih (u :: seen)

/-- When every fetch on the list raises, the loop returns the negative
low verdict, one failure note per candidate, and a trace of page requests
only. -/
theorem all_fail_go (O : Oracle) :
    ∀ (cs rs : List String), (∀ c ∈ cs, isErr (O.fetch c) = true) →
      is_shopify_go O rs cs =
        (⟨false, "низька", none, rs ++ cs.map (failNote O)⟩,
         cs.map Event.fetchReq) := by
  intro cs
  induction cs with
  | nil => intro rs _; simp [is_shopify_go]
  | cons c cs ih =>
    intro rs h
    have hc := h c (List.mem_cons_self c cs)
    cases hfc : O.fetch c with
    | ok r => rw [hfc] at hc; simp [isErr] at hc
    | error e =>
      have hrec := ih (rs ++ [probeFailMsg c e])
        (fun x hx => h x (List.mem_cons_of_mem c hx))
      simp only [is_shopify_go, probe_candidate, hfc, hrec]
      simp [failNote, hfc, List.append_assoc]

/-- Every decided verdict produced by one loop iteration is positive,
resolved and of high or medium confidence. -/
theorem probe_decided_shape (O : Oracle) (rs : List String) (c : String)
    (v : Verdict) (ev : List Event)
    (hp : probe_candidate O rs c = (StepOut.decided v, ev)) :
    v.ok = true ∧ (v.confidence = "висока" ∨ v.confidence = "середня") ∧
    v.resolvedUrl ≠ none := by
  cases hfc : O.fetch c with
  | error e =>
    simp only [probe_candidate, hfc] at hp
    simp at hp
  | ok r =>
    simp only [probe_candidate, hfc] at hp
    by_cases h1 : shopify_headers r = []
    · rw [if_pos h1] at hp
      by_cases h2 : (try_cart_json O r.url).1 = true
      · rw [if_pos h2] at hp
        simp only [Prod.mk.injEq, StepOut.decided.injEq] at hp
        obtain ⟨hv, _⟩ := hp
        subst hv
        exact ⟨rfl, Or.inl rfl, by simp⟩
      · rw [if_neg h2] at hp
        by_cases h3 : shopify_cookies r ≠ [] ∧ check_body_markers r.body ≠ []
        · rw [if_pos h3] at hp
          simp only [Prod.mk.injEq, StepOut.decided.injEq] at hp
          obtain ⟨hv, _⟩ := hp
          subst hv
          exact ⟨rfl, Or.inl rfl, by simp⟩
        · rw [if_neg h3] at hp
          by_cases h4 : shopify_cookies r ≠ [] ∨ check_body_markers r.body ≠ []
          · rw [if_pos h4] at hp
            simp only [Prod.mk.injEq, StepOut.decided.injEq] at hp
            obtain ⟨hv, _⟩ := hp
            subst hv
            exact ⟨rfl, Or.inr rfl, by simp⟩
          · rw [if_neg h4] at hp
            simp at hp
    · rw [if_neg h1] at hp
      simp only [Prod.mk.injEq, StepOut.decided.injEq] at hp
      obtain ⟨hv, _⟩ := hp
      subst hv
      exact ⟨rfl, Or.inl rfl, by simp⟩

/-- Every verdict the candidate loop can return is internally
consistent. -/
theorem go_consistent (O : Oracle) : ∀ (cs rs : List String),
    consistentVerdict (is_shopify_go O rs cs).1 := by
  intro cs
  induction cs with
  | nil =>
    intro rs
    refine ⟨by simp [is_shopify_go], by simp [is_shopify_go], ?_⟩
    intro _
    simp [is_shopify_go]
  | cons c cs ih =>
    intro rs
    simp only [is_shopify_go]
    cases hp : probe_candidate O rs c with
    | mk step ev =>
      cases step with
      | decided v =>
        simp only [hp]
        obtain ⟨h1, h2, h3⟩ := probe_decided_shape O rs c v ev hp
        exact ⟨iff_of_true h1 h3, iff_of_true h1 h2,
          fun hf => nomatch (hf ▸ h1)⟩
      | next rs2 =>
        simp only [hp]
        exact ih rs2


/-- C1: for every probed candidate whose response contains at least one
header whose name has the case-insensitive prefix `X-Shopify-`, the run
decides at that candidate with isShopify true, confidence high
(`висока`) and the resolved URL of the response, for every behaviour of
the cookie data, the body, and the auxiliary `/cart.js` endpoint. -/
theorem header_signal_decides_high (O : Oracle) (reasons rest : List String)
    (candidate : String) (r : Resp)
    (hf : O.fetch candidate = Except.ok r)
    (hh : ∃ k, k ∈ r.headerNames ∧ strStarts (lowerStr k) "x-shopify-" = true) :
    (is_shopify_go O reasons (candidate :: rest)).1.ok = true ∧
    (is_shopify_go O reasons (candidate :: rest)).1.confidence = "висока" ∧
    (is_shopify_go O reasons (candidate :: rest)).1.resolvedUrl = some r.url := by
  obtain ⟨k, hk, hpre⟩ := hh
  have hne : shopify_headers r ≠ [] :=
    List.ne_nil_of_mem (List.mem_filter.2 ⟨hk, hpre⟩)
  simp only [is_shopify_go, probe_candidate, hf]
  rw [if_neg hne]
  simp

/-- Witness for C1: on the concrete network `oracleHdr` the run decides
high at the first candidate. -/
theorem header_signal_decides_high_witness :
    (is_shopify_site oracleHdr false "site.com").1.ok = true ∧
    (is_shopify_site oracleHdr false "site.com").1.confidence = "висока" ∧
    (is_shopify_site oracleHdr false "site.com").1.resolvedUrl =
      some "https://shop.example/" := by
  have hn : normalize_candidates false "site.com" =
      "https://site.com/" :: ["http://site.com/", "https://www.site.com/",
        "http://www.site.com/"] := by decide
  have h := header_signal_decides_high oracleHdr []
    ["http://site.com/", "https://www.site.com/", "http://www.site.com/"]
    "https://site.com/" respHdr rfl ⟨"X-Shopify-Stage", by decide, by decide⟩
  simpa [is_shopify_site, hn] using h

/-- C2: for every probed candidate with no `X-Shopify-` header signal, if
the auxiliary `/cart.js` probe returns status 200 with a JSON content
type and a JSON dict containing one of the keys `items`, `token`,
`attributes`, the run decides with isShopify true, confidence high and
the resolved URL of the candidate, for every behaviour of the cookie and
body-marker data. -/
theorem cart_success_decides_high (O : Oracle) (reasons rest : List String)
    (candidate : String) (r : Resp) (cr : CartResp) (keys : List String)
    (hf : O.fetch candidate = Except.ok r)
    (hh : shopify_headers r = [])
    (hc : O.cart (urljoin_cart r.url) = Except.ok cr)
    (hs : cr.status = 200)
    (hct : strStarts (lowerStr cr.contentType) "application/json" = true)
    (hj : cr.json = Except.ok (PyJson.obj keys))
    (hk : (keys.contains "items" || keys.contains "token" ||
      keys.contains "attributes") = true) :
    (is_shopify_go O reasons (candidate :: rest)).1.ok = true ∧
    (is_shopify_go O reasons (candidate :: rest)).1.confidence = "висока" ∧
    (is_shopify_go O reasons (candidate :: rest)).1.resolvedUrl = some r.url := by
  have hcart1 : (try_cart_json O r.url).1 = true := by
    simp only [try_cart_json, hc, hs, hct, hj, hk]
    simp
  simp only [is_shopify_go, probe_candidate, hf]
  rw [if_pos hh]
  simp only [hcart1]
  simp

/-- Witness for C2: on the concrete network `oracleCartOk` a signal-free
page is decided high through the auxiliary endpoint alone. -/
theorem cart_success_decides_high_witness :
    (is_shopify_site oracleCartOk false "plain.com").1.ok = true ∧
    (is_shopify_site oracleCartOk false "plain.com").1.confidence = "висока" ∧
    (is_shopify_site oracleCartOk false "plain.com").1.resolvedUrl =
      some "https://plain.example/" := by
  have hn : normalize_candidates false "plain.com" =
      "https://plain.com/" :: ["http://plain.com/", "https://www.plain.com/",
        "http://www.plain.com/"] := by decide
  have h := cart_success_decides_high oracleCartOk []
    ["http://plain.com/", "https://www.plain.com/", "http://www.plain.com/"]
    "https://plain.com/" respPlain cartOkResp ["token"] rfl (by decide) rfl rfl
    (by decide) rfl (by decide)
  simpa [is_shopify_site, hn] using h

/-- C3 counterexample: on the concrete network `oracleHdr` the first
candidate is probed and its header check runs and hits, yet the cookie
check and the body-marker check are never evaluated for that response —
refuting the statement that all three checks run unconditionally on every
probed response. -/
theorem header_hit_skips_cookie_and_marker_checks :
    hasHeaderCheck (is_shopify_site oracleHdr false "site3.com").2 = true ∧
    hasCookieCheck (is_shopify_site oracleHdr false "site3.com").2 = false ∧
    hasMarkerCheck (is_shopify_site oracleHdr false "site3.com").2 = false := by
  decide

/-- C3 amended: on every probed response the header check runs; when it
hits, the verdict is decided with only the header check and the auxiliary
probe performed, and when it does not hit, the cookie check, the
body-marker check and the auxiliary probe are all evaluated, neither
short-circuited by the other. -/
theorem checks_run_iff_no_header_hit (O : Oracle) (reasons rest : List String)
    (candidate : String) (r : Resp)
    (hf : O.fetch candidate = Except.ok r) :
    (shopify_headers r ≠ [] →
      (is_shopify_go O reasons (candidate :: rest)).2 =
        [Event.fetchReq candidate, Event.headerCheck (shopify_headers r),
         Event.cartReq (urljoin_cart r.url)]) ∧
    (shopify_headers r = [] →
      (is_shopify_go O reasons (candidate :: rest)).2.take 5 =
        [Event.fetchReq candidate, Event.headerCheck [],
         Event.cookieCheck (shopify_cookies r),
         Event.markerCheck (check_body_markers r.body),
         Event.cartReq (urljoin_cart r.url)]) := by
  constructor
  · intro hh
    simp only [is_shopify_go, probe_candidate, hf]
    rw [if_neg hh]
  · intro hh
    simp only [is_shopify_go, probe_candidate, hf]
    rw [if_pos hh]
    by_cases h1 : (try_cart_json O r.url).1
    · simp [h1]
    · simp only [h1]
      by_cases h2 : shopify_cookies r ≠ [] ∧ check_body_markers r.body ≠ []
      · rw [if_neg (by simp [h1])]
        rw [if_pos h2]
        simp
      · rw [if_neg (by simp [h1])]
        rw [if_neg h2]
        by_cases h3 : shopify_cookies r ≠ [] ∨ check_body_markers r.body ≠ []
        · rw [if_pos h3]; simp
        · rw [if_neg h3]
          simp [List.take_append]

/-- Witness for the amended C3: on `oracleCookie` a header-free response
evaluates all of header, cookie, marker and auxiliary checks. -/
theorem checks_run_iff_no_header_hit_witness :
    (is_shopify_go oracleCookie [] ["https://cook.example/"]).2.take 5 =
      [Event.fetchReq "https://cook.example/", Event.headerCheck [],
       Event.cookieCheck ["_shopify_s"], Event.markerCheck [],
       Event.cartReq "https://cook.example/cart.js"] := by
  have h := (checks_run_iff_no_header_hit oracleCookie [] []
    "https://cook.example/" respCookie rfl).2 (by decide)
  exact h.trans (by decide)

/-- C4 counterexample: for the input `example.com` the two admissible
set-iteration orders produce two different candidate sequences, and in
one of them the `www`-counterpart precedes the input-derived host —
refuting the fixed input-derived-host-first order and the claim that the
order is determined by the input alone. -/
theorem candidate_order_depends_on_set_iteration :
    normalize_candidates true "example.com" =
      ["https://www.example.com/", "http://www.example.com/",
       "https://example.com/", "http://example.com/"] ∧
    normalize_candidates false "example.com" =
      ["https://example.com/", "http://example.com/",
       "https://www.example.com/", "http://www.example.com/"] := by
  decide

/-- C4 amended: for every input and every admissible set-iteration order,
the candidate list is either empty or consists of exactly the four URLs
of the two distinct host variants, the https URL immediately before the
http URL for each variant; which host variant comes first depends on the
set-iteration order, so the sequence is deterministic only for a fixed
order. -/
theorem candidate_list_shape (setSwap : Bool) (input : String) :
    normalize_candidates setSwap input = [] ∨
    (∃ h1 h2 : String, h1 ≠ h2 ∧
      ((h1 = normHost input ∧ h2 = wwwVariant (normHost input)) ∨
       (h1 = wwwVariant (normHost input) ∧ h2 = normHost input)) ∧
      normalize_candidates setSwap input =
        ["https://" ++ h1 ++ "/", "http://" ++ h1 ++ "/",
         "https://" ++ h2 ++ "/", "http://" ++ h2 ++ "/"]) := by
  by_cases h : normHost input = ""
  · left
    simp [normalize_candidates, h]
  · right
    cases setSwap with
    | false =>
      refine ⟨normHost input, wwwVariant (normHost input),
        fun he => wwwVariant_ne _ he.symm, Or.inl ⟨rfl, rfl⟩, ?_⟩
      simp only [normalize_candidates]
      rw [if_neg h]
      simpa using dedup_urls _ _ (fun he => wwwVariant_ne _ he.symm)
    | true =>
      refine ⟨wwwVariant (normHost input), normHost input,
        wwwVariant_ne _, Or.inr ⟨rfl, rfl⟩, ?_⟩
      simp only [normalize_candidates]
      rw [if_neg h]
      simpa using dedup_urls _ _ (wwwVariant_ne _)

/-- C5: for every probed candidate with no header signal and a negative
auxiliary check, the run decides high when both a qualifying cookie and a
qualifying body marker are present, and medium when exactly one of the
two is present, in both cases resolving to the final URL of the
candidate. -/
theorem cookie_marker_confidence_ladder (O : Oracle) (reasons rest : List String)
    (candidate : String) (r : Resp)
    (hf : O.fetch candidate = Except.ok r)
    (hh : shopify_headers r = [])
    (hcart : (try_cart_json O r.url).1 = false) :
    ((shopify_cookies r ≠ [] ∧ check_body_markers r.body ≠ []) →
      (is_shopify_go O reasons (candidate :: rest)).1.ok = true ∧
      (is_shopify_go O reasons (candidate :: rest)).1.confidence = "висока" ∧
      (is_shopify_go O reasons (candidate :: rest)).1.resolvedUrl = some r.url) ∧
    (((shopify_cookies r ≠ [] ∧ check_body_markers r.body = []) ∨
      (shopify_cookies r = [] ∧ check_body_markers r.body ≠ [])) →
      (is_shopify_go O reasons (candidate :: rest)).1.ok = true ∧
      (is_shopify_go O reasons (candidate :: rest)).1.confidence = "середня" ∧
      (is_shopify_go O reasons (candidate :: rest)).1.resolvedUrl = some r.url) := by
  constructor
  · rintro ⟨hck, hmk⟩
    simp only [is_shopify_go, probe_candidate, hf]
    rw [if_pos hh]
    simp only [hcart]
    rw [if_neg (by simp)]
    rw [if_pos ⟨hck, hmk⟩]
    simp
  · rintro (⟨hck, hmk⟩ | ⟨hck, hmk⟩)
    · simp only [is_shopify_go, probe_candidate, hf]
      rw [if_pos hh]
      simp only [hcart]
      rw [if_neg (by simp)]
      rw [if_neg (by rintro ⟨h1, h2⟩; exact h2 hmk)]
      rw [if_pos (Or.inl hck)]
      simp
    · simp only [is_shopify_go, probe_candidate, hf]
      rw [if_pos hh]
      simp only [hcart]
      rw [if_neg (by simp)]
      rw [if_neg (by rintro ⟨h1, h2⟩; exact h1 hck)]
      rw [if_pos (Or.inr hmk)]
      simp

/-- Witness for C5: on `oracleCookie` a cookie-only response is decided
with confidence medium (`середня`). -/
theorem cookie_marker_confidence_ladder_witness :
    (is_shopify_site oracleCookie false "cook.com").1.ok = true ∧
    (is_shopify_site oracleCookie false "cook.com").1.confidence = "середня" ∧
    (is_shopify_site oracleCookie false "cook.com").1.resolvedUrl =
      some "https://cook.example/" := by
  have hn : normalize_candidates false "cook.com" =
      "https://cook.com/" :: ["http://cook.com/", "https://www.cook.com/",
        "http://www.cook.com/"] := by decide
  have h := (cookie_marker_confidence_ladder oracleCookie []
    ["http://cook.com/", "https://www.cook.com/", "http://www.cook.com/"]
    "https://cook.com/" respCookie rfl (by decide) (by decide)).2
    (Or.inl ⟨by decide, by decide⟩)
  simpa [is_shopify_site, hn] using h

/-- C6 counterexample: on `oracleHdr` the header signal is present, the
auxiliary endpoint is attempted (a `cartReq` appears in the trace) and
fails, yet the evidence list contains only the header note and no
auxiliary message — refuting the statement that the auxiliary result is
recorded regardless of outcome. -/
theorem cart_failure_note_dropped_despite_attempt :
    hasCartReq (is_shopify_site oracleHdr false "site6.com").2 = true ∧
    (is_shopify_site oracleHdr false "site6.com").1.reasons =
      ["Заголовки містять X-Shopify-* (X-Shopify-Stage...)"] := by
  decide

/-- C6 amended: when the header signal is present the auxiliary endpoint
is attempted, but its result message is appended to the evidence list only
when the check succeeded; a failure message is discarded. -/
theorem header_branch_cart_note_only_on_success (O : Oracle)
    (reasons rest : List String) (candidate : String) (r : Resp)
    (hf : O.fetch candidate = Except.ok r)
    (hh : shopify_headers r ≠ []) :
    (is_shopify_go O reasons (candidate :: rest)).1.reasons =
      reasons ++ [headerMsg (shopify_headers r)] ++
        (if (try_cart_json O r.url).1 then [(try_cart_json O r.url).2] else []) ∧
    (is_shopify_go O reasons (candidate :: rest)).2 =
      [Event.fetchReq candidate, Event.headerCheck (shopify_headers r),
       Event.cartReq (urljoin_cart r.url)] := by
  simp only [is_shopify_go, probe_candidate, hf]
  rw [if_neg hh]
  by_cases hc : (try_cart_json O r.url).1
  · simp [hc]
  · simp [hc]

/-- Witness for the amended C6: on `oracleHdr` the evidence is exactly the
header note while the trace shows the auxiliary request was issued. -/
theorem header_branch_cart_note_only_on_success_witness :
    (is_shopify_site oracleHdr false "shop6.com").1.reasons =
      ["Заголовки містять X-Shopify-* (X-Shopify-Stage...)"] ∧
    (is_shopify_site oracleHdr false "shop6.com").2 =
      [Event.fetchReq "https://shop6.com/",
       Event.headerCheck ["X-Shopify-Stage"],
       Event.cartReq "https://shop.example/cart.js"] := by
  have hn : normalize_candidates false "shop6.com" =
      "https://shop6.com/" :: ["http://shop6.com/", "https://www.shop6.com/",
        "http://www.shop6.com/"] := by decide
  have h := header_branch_cart_note_only_on_success oracleHdr []
    ["http://shop6.com/", "https://www.shop6.com/", "http://www.shop6.com/"]
    "https://shop6.com/" respHdr rfl (by decide)
  have e1 : ([] ++ [headerMsg (shopify_headers respHdr)] ++
      (if (try_cart_json oracleHdr respHdr.url).1 = true then
        [(try_cart_json oracleHdr respHdr.url).2] else [])) =
      ["Заголовки містять X-Shopify-* (X-Shopify-Stage...)"] := by decide
  have e2 : [Event.fetchReq "https://shop6.com/",
      Event.headerCheck (shopify_headers respHdr),
      Event.cartReq (urljoin_cart respHdr.url)] =
      [Event.fetchReq "https://shop6.com/",
       Event.headerCheck ["X-Shopify-Stage"],
       Event.cartReq "https://shop.example/cart.js"] := by decide
  constructor
  · have := h.1.trans e1
    simpa [is_shopify_site, hn] using this
  · have := h.2.trans e2
    simpa [is_shopify_site, hn] using this

/-- C7: when every candidate fetch fails at the network level, the run
returns isShopify false with confidence low (`низька`) and no resolved
URL, the evidence list is exactly one failure note per attempted
candidate, and the trace shows only the page requests (the run terminates
normally, no failure escapes). -/
theorem all_probes_fail_negative_verdict (O : Oracle) (setSwap : Bool)
    (input : String)
    (h : ∀ c ∈ normalize_candidates setSwap input, isErr (O.fetch c) = true) :
    (is_shopify_site O setSwap input).1.ok = false ∧
    (is_shopify_site O setSwap input).1.confidence = "низька" ∧
    (is_shopify_site O setSwap input).1.resolvedUrl = none ∧
    (is_shopify_site O setSwap input).1.reasons =
      (normalize_candidates setSwap input).map (failNote O) ∧
    (is_shopify_site O setSwap input).2 =
      (normalize_candidates setSwap input).map Event.fetchReq := by
  have e := all_fail_go O (normalize_candidates setSwap input) [] h
  rw [is_shopify_site, e]
  simp

/-- Witness for C7: on the all-failing network `oracleDown` the run ends
negative with four failure notes. -/
theorem all_probes_fail_negative_verdict_witness :
    (is_shopify_site oracleDown false "x.com").1.ok = false ∧
    (is_shopify_site oracleDown false "x.com").1.confidence = "низька" ∧
    (is_shopify_site oracleDown false "x.com").1.resolvedUrl = none ∧
    (is_shopify_site oracleDown false "x.com").1.reasons =
      (normalize_candidates false "x.com").map (failNote oracleDown) ∧
    (is_shopify_site oracleDown false "x.com").2 =
      (normalize_candidates false "x.com").map Event.fetchReq :=
  all_probes_fail_negative_verdict oracleDown false "x.com" (by decide)

/-- C8: for every input that strips to the empty string, the normalizer
returns the empty candidate list and the run returns isShopify false,
confidence low, no resolved URL and no evidence, with an empty trace —
no network request of any kind is issued, on every network. -/
theorem blank_input_no_network_negative_verdict (O : Oracle) (setSwap : Bool)
    (input : String) (h : pyStrip input = "") :
    normalize_candidates setSwap input = [] ∧
    is_shopify_site O setSwap input = (⟨false, "низька", none, []⟩, []) := by
  have h1 : normHost input = "" := by simp [normHost, h]
  have hn : normalize_candidates setSwap input = [] := by
    simp [normalize_candidates, h1]
  exact ⟨hn, by rw [is_shopify_site, hn]; simp [is_shopify_go]⟩

/-- Witness for C8: a whitespace-only input yields the empty-evidence
negative verdict with an empty trace. -/
theorem blank_input_no_network_negative_verdict_witness :
    pyStrip "  \t " = "" ∧
    normalize_candidates false "  \t " = [] ∧
    is_shopify_site oracleDown false "  \t " =
      (⟨false, "низька", none, []⟩, []) := by
  have h := blank_input_no_network_negative_verdict oracleDown false "  \t "
    (by decide)
  exact ⟨by decide, h.1, h.2⟩

/-- C9: for every input string and every set-iteration order, the
candidate list of the normalizer contains no duplicate URLs and has at
most four entries. -/
theorem candidates_nodup_at_most_four (setSwap : Bool) (input : String) :
    (normalize_candidates setSwap input).Nodup ∧
    (normalize_candidates setSwap input).length ≤ 4 := by
  rw [normalize_candidates]
  by_cases h : normHost input = ""
  · simp [h]
  · rw [if_neg h]
    refine ⟨(dedupAux_nodup _ _).1, ?_⟩
    have := dedupAux_length
      (mkUrls (if setSwap then (wwwVariant (normHost input), normHost input)
        else (normHost input, wwwVariant (normHost input))).1 ++
       mkUrls (if setSwap then (wwwVariant (normHost input), normHost input)
        else (normHost input, wwwVariant (normHost input))).2) []
    cases setSwap <;> simpa [mkUrls] using this

/-- C10: for every input string, every network and every set-iteration
order, the returned verdict is internally consistent: the positive flag
holds exactly when a resolved URL is present, exactly when the confidence
is high or medium, and every negative verdict carries confidence low. -/
theorem verdict_internally_consistent (O : Oracle) (setSwap : Bool)
    (input : String) :
    ((is_shopify_site O setSwap input).1.ok = true ↔
      (is_shopify_site O setSwap input).1.resolvedUrl ≠ none) ∧
    ((is_shopify_site O setSwap input).1.ok = true ↔
      ((is_shopify_site O setSwap input).1.confidence = "висока" ∨
       (is_shopify_site O setSwap input).1.confidence = "середня")) ∧
    ((is_shopify_site O setSwap input).1.ok = false →
      (is_shopify_site O setSwap input).1.confidence = "низька") :=
  go_consistent O (normalize_candidates setSwap input) []

end ShopifyFinder
